import Mathlib

/-
Verification development for the qsiparc volume-parcellation engine.

The Python sources embedded here are:
  - src/qsiparc/metrics/metrics.py      (ROI statistic catalog, alias table, spec resolution)
  - src/qsiparc/parcellation/volume.py  (parcellate_volume, _ensure_aligned, _load_mask,
                                         _BUILTIN_METRICS, _resolve_metric_specs)

Modelling conventions:
  - Python/numpy floats are modelled by the type NVal: nan is the not-a-number value,
    val q is an exact rational, and sqrtVal q stands for the (possibly irrational) square
    root of the rational q.  sqrtVal only ever appears as the output of the standard
    deviation reducer; grid voxels and reducer inputs are always nan or val.
  - numpy arrays are flattened row-major into lists; a loaded image is its shape plus
    the flat voxel list.
  - The external resampling routine (nibabel resample_from_to), the image loader, the
    MNI preset masks and the tabular LUT reader are injected capabilities: the engine is
    parametrised over them, exactly as the spec treats them (opaque collaborators).
  - Python exceptions raised by the engine are modelled by Except EngineError.
  - logger.warning calls in _ensure_aligned are modelled by returning the list of
    emitted diagnostics (each naming both shapes) alongside the two images.
-/

namespace QsiParc

/-- NVal models a numpy floating-point value: nan, an exact rational, or the square
root of a rational (the exact value of the std reducer, which is the only place a
square root is produced; it never occurs in grid data or reducer inputs). -/
inductive NVal where
  | nan : NVal
  | val : ℚ → NVal
  | sqrtVal : ℚ → NVal
deriving DecidableEq

/-- Valid (non-nan) entries of an array, as rationals; models numpy nan-exclusion. -/
def validVals (arr : List NVal) : List ℚ :=
  arr.filterMap fun v =>
    match v with
    | .val q => some q
    | _ => none

/-- True when the array contains a nan entry. -/
def hasNaN (arr : List NVal) : Bool :=
  arr.any fun v =>
    match v with
    | .nan => true
    | _ => false

/-- Insertion step of an insertion sort on rationals (duplicates kept). -/
def insertSorted (x : ℚ) : List ℚ → List ℚ
  | [] => [x]
  | y :: ys => if x ≤ y then x :: y :: ys else y :: insertSorted x ys

/-- Ascending sort of a rational list, models numpy sorting inside median/percentile. -/
def sortQ (l : List ℚ) : List ℚ := l.foldr insertSorted []

/-- Median of an already-sorted list, numpy convention: middle element for odd length,
mean of the two middle elements for even length. -/
def medianOfSorted (s : List ℚ) : ℚ :=
  if s.length % 2 = 1 then s.getD (s.length / 2) 0
  else (s.getD (s.length / 2 - 1) 0 + s.getD (s.length / 2) 0) / 2

/-- Population variance of a rational list (numpy var with ddof 0). -/
def varQ (vs : List ℚ) : ℚ :=
  let m := vs.sum / (vs.length : ℚ)
  (vs.map fun x => (x - m) ^ 2).sum / (vs.length : ℚ)

/-- Linear-interpolation percentile of numpy: position p/100 * (n-1) into the sorted
values, interpolating between the two neighbouring order statistics. -/
def percentileQ (vs : List ℚ) (p : ℚ) : ℚ :=
  let s := sortQ vs
  let n := s.length
  if n = 0 then 0
  else
    let pos : ℚ := p / 100 * ((n : ℚ) - 1)
    let i : ℕ := (Rat.floor pos).toNat
    let frac : ℚ := pos - (i : ℚ)
    let lo := s.getD i 0
    let hi := s.getD (min (i + 1) (n - 1)) 0
    lo + frac * (hi - lo)

/-- np.percentile over an NVal array: nan whenever a nan is present (numpy propagates
nan through percentile), otherwise the exact linear-interpolation percentile. -/
def npPercentile (arr : List NVal) (p : ℚ) : NVal :=
  if hasNaN arr ∨ arr.length = 0 then .nan
  else .val (percentileQ (validVals arr) p)

/-- np.mean over an NVal array: nan propagates; empty input gives nan. -/
def npMean (arr : List NVal) : NVal :=
  if hasNaN arr ∨ arr.length = 0 then .nan
  else .val ((validVals arr).sum / (arr.length : ℚ))

/-- np.median over an NVal array: nan propagates; empty input gives nan. -/
def npMedian (arr : List NVal) : NVal :=
  if hasNaN arr ∨ arr.length = 0 then .nan
  else .val (medianOfSorted (sortQ (validVals arr)))

/-- Comparison used by the IQR filter: a numpy comparison involving nan is False. -/
def nvLe : NVal → NVal → Bool
  | .val a, .val b => decide (a ≤ b)
  | _, _ => false

/-- Elementwise abs(x - m) with nan propagation, used by the MAD reducers. -/
def nvAbsSub : NVal → NVal → NVal
  | .val a, .val b => .val |a - b|
  | _, _ => .nan

/-- A reducer maps the voxel values of one region to a single value
(metrics.py RoiMetricFn, volume.py MetricFunc). -/
abbrev Reducer := List NVal → NVal

/-- metrics.py _nanmean: float(np.nanmean(arr)) if arr.size else nan.  np.nanmean of a
nonempty all-nan array is nan.  The volume.py catalog entry for the name mean is the
same lambda body and is shared here. -/
def _nanmean (arr : List NVal) : NVal :=
  if arr.length = 0 then .nan
  else
    match validVals arr with
    | [] => .nan
    | vs => .val (vs.sum / (vs.length : ℚ))

/-- metrics.py _nanmedian (also the volume.py median entry). -/
def _nanmedian (arr : List NVal) : NVal :=
  if arr.length = 0 then .nan
  else
    match validVals arr with
    | [] => .nan
    | vs => .val (medianOfSorted (sortQ vs))

/-- metrics.py _nanstd (also the volume.py std entry): the square root of the
population variance of the valid values, nan when there are none. -/
def _nanstd (arr : List NVal) : NVal :=
  if arr.length = 0 then .nan
  else
    match validVals arr with
    | [] => .nan
    | vs => .sqrtVal (varQ vs)

/-- metrics.py _nanmin (also the volume.py min entry). -/
def _nanmin (arr : List NVal) : NVal :=
  if arr.length = 0 then .nan
  else
    match validVals arr with
    | [] => .nan
    | v :: vs => .val (vs.foldl min v)

/-- metrics.py _nanmax (also the volume.py max entry). -/
def _nanmax (arr : List NVal) : NVal :=
  if arr.length = 0 then .nan
  else
    match validVals arr with
    | [] => .nan
    | v :: vs => .val (vs.foldl max v)

/-- metrics.py _count (also the volume.py count entry): float(arr.size), with no
empty-input guard, so the empty array yields 0.0 rather than nan. -/
def _count (arr : List NVal) : NVal :=
  .val (arr.length : ℚ)

/-- Variance counterpart of np.nanstd(arr): nan when no valid values.  Introduced so
that the z-score filter below can be phrased over rationals (std is sqrt of this). -/
def nanvarQ (arr : List NVal) : NVal :=
  match validVals arr with
  | [] => .nan
  | vs => .val (varQ vs)

/-- metrics.py _zfiltered_mean with its threshold of 3 (volume.py hardcodes the same
constant): nan on empty input; the plain nanmean when the std is zero; otherwise the
nanmean of the entries whose z-score magnitude is below 3.  The test abs z less than 3
with z = (x - mean)/std is stated equivalently as (x - mean)^2 less than 9 * variance,
keeping everything rational; a nan mean or std lets no entry through, matching numpy
where every comparison with nan is False. -/
def _zfiltered_mean (arr : List NVal) : NVal :=
  if arr.length = 0 then .nan
  else
    match _nanmean arr, nanvarQ arr with
    | .val m, .val v =>
        if v = 0 then .val m
        else
          let filtered := arr.filter fun x =>
            match x with
            | .val q => decide ((q - m) ^ 2 < 9 * v)
            | _ => false
          if filtered.length = 0 then .nan else _nanmean filtered
    | _, _ => .nan

/-- metrics.py _iqr_mean (also the volume.py iqr_mean entry): nan on empty input;
otherwise the np.mean of the entries between the 25th and 75th percentiles inclusive,
nan when the filter keeps nothing (in particular whenever a nan makes both
percentiles nan). -/
def _iqr_mean (arr : List NVal) : NVal :=
  if arr.length = 0 then .nan
  else
    let q1 := npPercentile arr 25
    let q3 := npPercentile arr 75
    let subset := arr.filter fun x => nvLe q1 x && nvLe x q3
    if subset.length = 0 then .nan else npMean subset

/-- metrics.py _mad_median: nan on empty input; otherwise the nanmedian of the
absolute deviations from the nanmedian. -/
def _mad_median (arr : List NVal) : NVal :=
  if arr.length = 0 then .nan
  else
    let median := _nanmedian arr
    let devs := arr.map fun x => nvAbsSub x median
    _nanmedian devs

/-- volume.py _mad_median: same shape, but with np.median (nan-propagating) in place
of np.nanmedian. -/
def volMadMedian (arr : List NVal) : NVal :=
  if arr.length = 0 then .nan
  else
    let median := npMedian arr
    let devs := arr.map fun x => nvAbsSub x median
    npMedian devs

/-- metrics.py RoiStatistic: a named, described ROI statistic. -/
structure RoiStatistic where
  name : String
  description : String
  compute : Reducer

/-- metrics.py ROI_METRICS, as an association list in dict insertion order. -/
def ROI_METRICS : List (String × RoiStatistic) :=
  [ ("nanmean",
     { name := "nanmean",
       description := "Mean ignoring NaNs: mean(x) = sum(x_i) / N_valid",
       compute := _nanmean }),
    ("nanmedian",
     { name := "nanmedian",
       description := "Median ignoring NaNs: median(x) = 50th percentile of valid values",
       compute := _nanmedian }),
    ("nanstd",
     { name := "nanstd",
       description := "Std dev ignoring NaNs: std(x) = sqrt(sum((x_i - mean)^2) / N_valid)",
       compute := _nanstd }),
    ("nanmin",
     { name := "nanmin", description := "Minimum ignoring NaNs: min(x_i)", compute := _nanmin }),
    ("nanmax",
     { name := "nanmax", description := "Maximum ignoring NaNs: max(x_i)", compute := _nanmax }),
    ("count",
     { name := "count", description := "Voxel count (including NaNs): N_total", compute := _count }),
    ("zfmean",
     { name := "zfmean",
       description := "Z-filtered mean: mean(x_i) after removing |(x_i-mean)/std| >= 3",
       compute := _zfiltered_mean }),
    ("iqrmean",
     { name := "iqrmean",
       description := "Mean within interquartile range: mean(x_i where Q1 <= x_i <= Q3)",
       compute := _iqr_mean }),
    ("mad_median",
     { name := "mad_median",
       description := "Median absolute deviation: median(|x_i - median(x)|)",
       compute := _mad_median }) ]

/-- metrics.py ROI_METRIC_ALIASES: legacy or alias names to canonical names. -/
def ROI_METRIC_ALIASES : List (String × String) :=
  [ ("mean", "nanmean"),
    ("median", "nanmedian"),
    ("std", "nanstd"),
    ("min", "nanmin"),
    ("max", "nanmax"),
    ("count", "count"),
    ("zfiltered_mean", "zfmean"),
    ("iqr_mean", "iqrmean") ]

/-- metrics.py DEFAULT_ROI_METRIC_NAMES: the catalog keys in insertion order. -/
def DEFAULT_ROI_METRIC_NAMES : List String := ROI_METRICS.map Prod.fst

/-- metrics.py get_roi_metric: dict lookup in the catalog. -/
def get_roi_metric (name : String) : Option RoiStatistic :=
  (ROI_METRICS.lookup name).map id

/-- A metric specification (metrics.py RoiMetricSpec, volume.py MetricSpec): a name
string, a callable (carrying its optional introspectable identifier), or an explicit
(name, callable) pair. -/
inductive MetricSpec where
  | name : String → MetricSpec
  | fn : Option String → Reducer → MetricSpec
  | named : String → Reducer → MetricSpec

/-- Typed model of the ValueErrors the engine raises, one constructor per failure
kind named by the spec. -/
inductive EngineError where
  | shapeMismatch : List ℕ → List ℕ → EngineError
  | unknownPolicy : String → EngineError
  | unknownMetric : String → EngineError
  | unsupportedMaskType : String → EngineError
deriving DecidableEq

/-- Decidable equality for Except results, so that concrete engine runs can be
checked by evaluation. -/
instance {ε α : Type} [DecidableEq ε] [DecidableEq α] : DecidableEq (Except ε α) :=
  fun x y =>
    match x, y with
    | .ok a, .ok b =>
      if h : a = b then isTrue (by rw [h]) else isFalse fun hh => h (Except.ok.inj hh)
    | .error a, .error b =>
      if h : a = b then isTrue (by rw [h]) else isFalse fun hh => h (Except.error.inj hh)
    | .ok _, .error _ => isFalse fun hh => Except.noConfusion hh
    | .error _, .ok _ => isFalse fun hh => Except.noConfusion hh

/-- Loop body of metrics.py resolve_roi_metric_specs: each spec is resolved in order,
strings go through the alias table and then the catalog (the original string is kept
as the column name), callables use their identifier or the custom_metric fallback,
pairs are taken as given; an unknown name raises immediately. -/
def resolveRegLoop : List MetricSpec → Except EngineError (List String × List Reducer)
  | [] => .ok ([], [])
  | spec :: rest =>
    match spec with
    | .name s =>
      let lookupName := (ROI_METRIC_ALIASES.lookup s).getD s
      match get_roi_metric lookupName with
      | none => .error (.unknownMetric s)
      | some stat =>
        match resolveRegLoop rest with
        | .error e => .error e
        | .ok (ns, fs) => .ok (s :: ns, stat.compute :: fs)
    | .fn nameOpt f =>
      match resolveRegLoop rest with
      | .error e => .error e
      | .ok (ns, fs) => .ok (nameOpt.getD "custom_metric" :: ns, f :: fs)
    | .named n f =>
      match resolveRegLoop rest with
      | .error e => .error e
      | .ok (ns, fs) => .ok (n :: ns, f :: fs)

/-- metrics.py resolve_roi_metric_specs: a falsy metrics argument (absent or the
empty list) falls back to the default names (or the full catalog) taken as string
specs. -/
def resolve_roi_metric_specs (metrics : Option (List MetricSpec))
    (default : Option (List String)) : Except EngineError (List String × List Reducer) :=
  let specs :=
    match metrics with
    | none => (default.getD DEFAULT_ROI_METRIC_NAMES).map MetricSpec.name
    | some [] => (default.getD DEFAULT_ROI_METRIC_NAMES).map MetricSpec.name
    | some l => l
  resolveRegLoop specs

/-- volume.py _BUILTIN_METRICS: the engine-local catalog, an association list in dict
insertion order.  The inline lambdas of the source have the same bodies as the
metrics-module helpers and are shared here, except mad_median, which uses np.median
instead of np.nanmedian. -/
def _BUILTIN_METRICS : List (String × Reducer) :=
  [ ("mean", _nanmean),
    ("median", _nanmedian),
    ("std", _nanstd),
    ("min", _nanmin),
    ("max", _nanmax),
    ("count", _count),
    ("zfiltered_mean", _zfiltered_mean),
    ("iqr_mean", _iqr_mean),
    ("mad_median", volMadMedian) ]

/-- Loop body of volume.py _resolve_metric_specs: names are looked up directly in
_BUILTIN_METRICS (no aliases), callables and pairs as in the registry resolver. -/
def resolveVolLoop : List MetricSpec → Except EngineError (List String × List Reducer)
  | [] => .ok ([], [])
  | spec :: rest =>
    match spec with
    | .name s =>
      match _BUILTIN_METRICS.lookup s with
      | none => .error (.unknownMetric s)
      | some f =>
        match resolveVolLoop rest with
        | .error e => .error e
        | .ok (ns, fs) => .ok (s :: ns, f :: fs)
    | .fn nameOpt f =>
      match resolveVolLoop rest with
      | .error e => .error e
      | .ok (ns, fs) => .ok (nameOpt.getD "custom_metric" :: ns, f :: fs)
    | .named n f =>
      match resolveVolLoop rest with
      | .error e => .error e
      | .ok (ns, fs) => .ok (n :: ns, f :: fs)

/-- volume.py _resolve_metric_specs: a falsy metrics sequence falls back to the
single-element tuple containing the name mean. -/
def _resolve_metric_specs (metrics : List MetricSpec) :
    Except EngineError (List String × List Reducer) :=
  let ms := if metrics.isEmpty then [MetricSpec.name "mean"] else metrics
  resolveVolLoop ms

/-- A loaded image: its voxel-grid shape and the flat (row-major) voxel data.  The
affine is not modelled; the injected resampler is the only consumer of geometry. -/
structure Image where
  shape : List ℕ
  data : List NVal
deriving DecidableEq

/-- volume.py _ensure_aligned, parametrised over the external resample_from_to
capability (moving image, target image, interpolation order).  Returns the two
images together with the list of warning diagnostics emitted (each names both
shapes, as the logged message does). -/
def _ensure_aligned (resample_from_to : Image → Image → ℕ → Image)
    (atlas_img scalar_img : Image) (resample_target : Option String) :
    Except EngineError (Image × Image × List (List ℕ × List ℕ)) :=
  if atlas_img.shape = scalar_img.shape then
    .ok (atlas_img, scalar_img, [])
  else
    match resample_target with
    | none => .error (.shapeMismatch atlas_img.shape scalar_img.shape)
    | some t =>
      if t = "atlas" ∨ t = "labels" then
        .ok (atlas_img, resample_from_to scalar_img atlas_img 1,
             [(atlas_img.shape, scalar_img.shape)])
      else if t = "scalar" ∨ t = "data" then
        .ok (resample_from_to atlas_img scalar_img 0, scalar_img,
             [(atlas_img.shape, scalar_img.shape)])
      else .error (.unknownPolicy t)

/-- The runtime type of the mask argument: an in-memory image, a Path, a string, or
any other value (carrying the name of its type, as the raised message formats it). -/
inductive MaskInput where
  | image : Image → MaskInput
  | path : String → MaskInput
  | str : String → MaskInput
  | other : String → MaskInput

/-- volume.py _load_mask, parametrised over the nibabel loader and the three nilearn
MNI preset masks: images pass through, paths are loaded, strings resolve a preset by
lowercased name or else fall back to loading as a path-like string, and any other
value raises the unsupported-mask-type error. -/
def _load_mask (nib_load : String → Image) (gm_mask wm_mask csf_mask : Image) :
    MaskInput → Except EngineError Image
  | .image img => .ok img
  | .path p => .ok (nib_load p)
  | .str s =>
    let key := s.toLower
    if key = "gm" then .ok gm_mask
    else if key = "wm" then .ok wm_mask
    else if key = "csf" then .ok csf_mask
    else .ok (nib_load s)
  | .other t => .error (.unsupportedMaskType t)

/-- The lut argument: an in-memory mapping or a tab-separated file of index and
label columns. -/
inductive LutInput where
  | mapping : List (ℤ × String) → LutInput
  | pathLut : String → LutInput

/-- Python dict built from a pair list, with dict.get fallback: the last binding of a
key wins, a missing key degrades to the default. -/
def dictGet (pairs : List (ℤ × String)) (k : ℤ) (dflt : String) : String :=
  ((pairs.reverse).lookup k).getD dflt

/-- numpy cast of a voxel to int (np.asanyarray with dtype int): rationals truncate
toward zero; nan casts to the int64 minimum on the reference platform.  Atlas volumes
carry integral values, so only the first branch is exercised. -/
def nvToInt : NVal → ℤ
  | .val q => Int.tdiv q.num q.den
  | .nan => -(2 ^ 63)
  | .sqrtVal _ => -(2 ^ 63)

/-- numpy cast of a voxel to bool: nonzero is True, and nan is True. -/
def nvToBool : NVal → Bool
  | .val q => decide (q ≠ 0)
  | .nan => true
  | .sqrtVal q => decide (q ≠ 0)

/-- np.where(mask_data, atlas, 0): keep the label where the mask is True, background
0 where it is False. -/
def npWhereZero (cond : List Bool) (a : List ℤ) : List ℤ :=
  List.zipWith (fun c x => if c then x else 0) cond a

/-- Sorted-insert step of np.unique on integers: keeps the list strictly ascending
and drops duplicates. -/
def insertUnique (x : ℤ) : List ℤ → List ℤ
  | [] => [x]
  | y :: ys =>
    if x < y then x :: y :: ys
    else if x = y then y :: ys
    else y :: insertUnique x ys

/-- np.unique: the distinct values of the list in ascending order. -/
def npUnique (l : List ℤ) : List ℤ := l.foldr insertUnique []

/-- Boolean-mask gather scalars[atlas == label]: the value-grid entries at the voxel
positions carrying the given label. -/
def gatherValues (atlas : List ℤ) (scalars : List NVal) (label : ℤ) : List NVal :=
  ((atlas.zip scalars).filter fun p => decide (p.1 = label)).map Prod.snd

/-- str(int(label)): the stringified integer label used for the index column and the
LUT fallback. -/
def intLabelString (l : ℤ) : String := toString l

/-- Alignment, integer cast and mask application of parcellate_volume (volume.py
lines 115 to 123), projected onto the atlas side: the aligned atlas data cast to int,
then zeroed outside the mask.  A mask image whose shape differs from the atlas is
first resampled onto the atlas with order 0. -/
def maskedAtlas (resample_from_to : Image → Image → ℕ → Image)
    (nib_load : String → Image) (gm_mask wm_mask csf_mask : Image)
    (atlas_path scalar_path : Image) (resample_target : Option String)
    (mask : Option MaskInput) : Except EngineError (List ℤ) :=
  match _ensure_aligned resample_from_to atlas_path scalar_path resample_target with
  | .error e => .error e
  | .ok (atlas_img, _scalar_img, _warns) =>
    let atlas := atlas_img.data.map nvToInt
    match mask with
    | none => .ok atlas
    | some m =>
      match _load_mask nib_load gm_mask wm_mask csf_mask m with
      | .error e => .error e
      | .ok mask_img =>
        let mask_img :=
          if mask_img.shape ≠ atlas_img.shape then resample_from_to mask_img atlas_img 0
          else mask_img
        let mask_data := mask_img.data.map nvToBool
        .ok (npWhereZero mask_data atlas)

/-- The scalar-side projection of the same alignment step: the aligned value-grid
data as floats. -/
def alignedScalar (resample_from_to : Image → Image → ℕ → Image)
    (atlas_path scalar_path : Image) (resample_target : Option String) :
    Except EngineError (List NVal) :=
  match _ensure_aligned resample_from_to atlas_path scalar_path resample_target with
  | .error e => .error e
  | .ok (_atlas_img, scalar_img, _warns) => .ok scalar_img.data

/-- The result table of parcellate_volume: the index column of stringified labels,
the integer label column, the optional name column, and one value column per
resolved metric (row-major values). -/
structure ROITable where
  indexCol : List String
  labelCol : List ℤ
  nameCol : Option (List String)
  metricNames : List String
  values : List (List NVal)
deriving DecidableEq

/-- volume.py parcellate_volume over in-memory images, parametrised over the
external capabilities (resampler, nibabel loader, the three preset masks, the
tabular LUT reader).  The source computes alignment and masking once inline; here
that step is split into its atlas and scalar projections (maskedAtlas and
alignedScalar), which are the same pure computation.  The output_format argument is
accepted and, as in the source, never read. -/
def parcellate_volume (resample_from_to : Image → Image → ℕ → Image)
    (nib_load : String → Image) (gm_mask wm_mask csf_mask : Image)
    (read_tsv : String → List (ℤ × String))
    (atlas_path scalar_path : Image)
    (metrics : List MetricSpec)
    (lut : Option LutInput)
    (resample_target : Option String)
    (output_format : String)
    (mask : Option MaskInput) : Except EngineError ROITable :=
  match maskedAtlas resample_from_to nib_load gm_mask wm_mask csf_mask
      atlas_path scalar_path resample_target mask with
  | .error e => .error e
  | .ok atlas =>
    match alignedScalar resample_from_to atlas_path scalar_path resample_target with
    | .error e => .error e
    | .ok scalars =>
      match _resolve_metric_specs metrics with
      | .error e => .error e
      | .ok (metric_names, metric_funcs) =>
        let labels := (npUnique atlas).filter fun l => decide (0 < l)
        let roi_names := labels.map intLabelString
        let lut_names : Option (List String) :=
          match lut with
          | none => none
          | some (LutInput.mapping m) =>
            some (labels.map fun l => dictGet m l (intLabelString l))
          | some (LutInput.pathLut p) =>
            some (labels.map fun l => dictGet (read_tsv p) l (intLabelString l))
        let values := labels.map fun label =>
          metric_funcs.map fun f => f (gatherValues atlas scalars label)
        .ok { indexCol := roi_names, labelCol := labels, nameCol := lut_names,
              metricNames := metric_names, values := values }

/-- Concrete 2 by 2 label grid of the spec scenarios: rows [1,1] and [2,2]. -/
def imgA : Image := { shape := [2, 2], data := [.val 1, .val 1, .val 2, .val 2] }

/-- Another 2 by 2 image with different data (used where two equal-shape images are
needed). -/
def imgA2 : Image := { shape := [2, 2], data := [.val 0, .val 0, .val 0, .val 0] }

/-- A 4 by 4 image, shape-mismatched with the 2 by 2 fixtures. -/
def imgB : Image := { shape := [4, 4], data := [.val 0] }

/-- A stand-in for the injected resampler: adopts the target shape and keeps the
moving data (any compliant implementation satisfies the contracts proved here). -/
def constResample : Image → Image → ℕ → Image :=
  fun moving target _order => { shape := target.shape, data := moving.data }

/-- A stand-in for the injected image loader. -/
def nibLoadEx : String → Image := fun _p => imgB

/-- A stand-in for the injected tab-separated LUT reader. -/
def readTsvEx : String → List (ℤ × String) := fun _p => []

/-- The scalar grid of the spec scenarios: rows [1,3] and [5,7]. -/
def scalarImgEx : Image := { shape := [2, 2], data := [.val 1, .val 3, .val 5, .val 7] }

/-- The scenario mask [[0,1],[0,1]]: zeroes column 0. -/
def maskImgEx : Image := { shape := [2, 2], data := [.val 0, .val 1, .val 0, .val 1] }

/-- Membership in the sorted-insert step: exactly the inserted value and the old
members. -/
theorem mem_insertUnique (x a : ℤ) (l : List ℤ) :
    a ∈ insertUnique x l ↔ a = x ∨ a ∈ l := by
  induction l with
  | nil => simp [insertUnique]
  | cons y ys ih =>
    rw [insertUnique]
    by_cases h1 : x < y
    · rw [if_pos h1]
      simp
    · rw [if_neg h1]
      by_cases h2 : x = y
      · rw [if_pos h2]
        subst h2
        simp only [List.mem_cons]
        tauto
      · rw [if_neg h2]
        simp only [List.mem_cons, ih]
        tauto

/-- The sorted-insert step preserves strict ascending order. -/
theorem sorted_insertUnique (x : ℤ) (l : List ℤ) (h : l.Sorted (· < ·)) :
    (insertUnique x l).Sorted (· < ·) := by
  induction l with
  | nil => simp [insertUnique]
  | cons y ys ih =>
    rw [List.sorted_cons] at h
    obtain ⟨hy, hys⟩ := h
    by_cases h1 : x < y
    · rw [insertUnique, if_pos h1, List.sorted_cons]
      refine ⟨?_, List.sorted_cons.mpr ⟨hy, hys⟩⟩
      intro b hb
      rcases List.mem_cons.mp hb with rfl | hb
      · exact h1
      · exact h1.trans (hy b hb)
    · by_cases h2 : x = y
      · rw [insertUnique, if_neg h1, if_pos h2]
        exact List.sorted_cons.mpr ⟨hy, hys⟩
      · have hyx : y < x := by omega
        rw [insertUnique, if_neg h1, if_neg h2, List.sorted_cons]
        refine ⟨?_, ih hys⟩
        intro b hb
        rcases (mem_insertUnique x b ys).mp hb with rfl | hb
        · exact hyx
        · exact hy b hb

/-- np.unique returns a strictly ascending list. -/
theorem sorted_npUnique (l : List ℤ) : (npUnique l).Sorted (· < ·) := by
  induction l with
  | nil => simp [npUnique]
  | cons x xs ih => exact sorted_insertUnique x (npUnique xs) ih

/-- np.unique returns exactly the values of its input. -/
theorem mem_npUnique (a : ℤ) (l : List ℤ) : a ∈ npUnique l ↔ a ∈ l := by
  induction l with
  | nil => simp [npUnique]
  | cons x xs ih =>
    show a ∈ insertUnique x (npUnique xs) ↔ _
    rw [mem_insertUnique, ih, List.mem_cons]

/-- Pointwise description of np.where(mask, atlas, 0). -/
theorem npWhereZero_getElem (cond : List Bool) (a : List ℤ) (i : ℕ)
    (h1 : i < cond.length) (h2 : i < a.length) :
    (npWhereZero cond a)[i]? = some (if cond[i] then a[i] else 0) := by
  induction cond generalizing a i with
  | nil => simp at h1
  | cons c cs ih =>
    cases a with
    | nil => simp at h2
    | cons x xs =>
      cases i with
      | zero => simp [npWhereZero]
      | succ n =>
        have hn1 : n < cs.length := by simpa using h1
        have hn2 : n < xs.length := by simpa using h2
        simpa only [npWhereZero, List.zipWith, List.getElem?_cons_succ,
          List.getElem_cons_succ] using ih xs n hn1 hn2

/-- Claim C3: when the shapes differ, a policy naming the label grid (labels or
atlas) returns the atlas unchanged and the value grid resampled onto the atlas with
interpolation order 1 (hence at least 1), while a policy naming the value grid (data
or scalar) returns the value grid unchanged and the atlas resampled onto it with
nearest-neighbor order 0; in both cases exactly one warning diagnostic naming both
shapes is emitted. -/
theorem reconciliation_policy_resampling (resample : Image → Image → ℕ → Image)
    (a s : Image) (h : a.shape ≠ s.shape) :
    (∀ t, t = "labels" ∨ t = "atlas" →
      _ensure_aligned resample a s (some t) =
        .ok (a, resample s a 1, [(a.shape, s.shape)])) ∧
    (∀ t, t = "data" ∨ t = "scalar" →
      _ensure_aligned resample a s (some t) =
        .ok (resample a s 0, s, [(a.shape, s.shape)])) := by
  constructor
  · rintro t (rfl | rfl) <;> simp [_ensure_aligned, h]
  · rintro t (rfl | rfl) <;> simp [_ensure_aligned, h]

/-- Witness for C3 at the 2 by 2 versus 4 by 4 fixtures. -/
theorem reconciliation_policy_resampling_witness :
    _ensure_aligned constResample imgA imgB (some "labels") =
      .ok (imgA, constResample imgB imgA 1, [([2, 2], [4, 4])]) ∧
    _ensure_aligned constResample imgA imgB (some "data") =
      .ok (constResample imgA imgB 0, imgB, [([2, 2], [4, 4])]) :=
  ⟨(reconciliation_policy_resampling constResample imgA imgB (by decide)).1
      "labels" (Or.inl rfl),
   (reconciliation_policy_resampling constResample imgA imgB (by decide)).2
      "data" (Or.inl rfl)⟩

/-- Claim C5: with no reconciliation policy, matching shapes return both grids
unchanged (and no diagnostic), and mismatched shapes fail with the shape-mismatch
error carrying both shapes. -/
theorem none_policy_shape_mismatch (resample : Image → Image → ℕ → Image)
    (a s : Image) :
    (a.shape = s.shape → _ensure_aligned resample a s none = .ok (a, s, [])) ∧
    (a.shape ≠ s.shape →
      _ensure_aligned resample a s none = .error (.shapeMismatch a.shape s.shape)) := by
  constructor <;> intro h <;> simp [_ensure_aligned, h]

/-- Witness for C5: both branches at concrete images. -/
theorem none_policy_shape_mismatch_witness :
    _ensure_aligned constResample imgA imgA2 none = .ok (imgA, imgA2, []) ∧
    _ensure_aligned constResample imgA imgB none =
      .error (.shapeMismatch [2, 2] [4, 4]) :=
  ⟨(none_policy_shape_mismatch constResample imgA imgA2).1 rfl,
   (none_policy_shape_mismatch constResample imgA imgB).2 (by decide)⟩

/-- Counterexample to claim C6: with an unrecognized policy token but matching
shapes, reconciliation does not fail; the shape test precedes the policy test, so
the grids come back unchanged and no UnknownPolicyError is raised. -/
theorem unknown_policy_matching_shapes_no_error :
    _ensure_aligned constResample imgA imgA2 (some "bogus") = .ok (imgA, imgA2, []) ∧
    _ensure_aligned constResample imgA imgA2 (some "bogus") ≠
      .error (.unknownPolicy "bogus") := by
  refine ⟨rfl, fun h => ?_⟩
  have h2 : (Except.ok (imgA, imgA2, ([] : List (List ℕ × List ℕ)))
      : Except EngineError (Image × Image × List (List ℕ × List ℕ))) =
      .error (.unknownPolicy "bogus") := h
  exact Except.noConfusion h2

/-- Claim C6 as amended: an unrecognized policy token fails with the unknown-policy
error exactly when the shapes differ; when the shapes already match, the grids are
returned unchanged and the token is never consulted. -/
theorem unknown_policy_error_on_mismatch (resample : Image → Image → ℕ → Image)
    (a s : Image) (t : String)
    (h1 : t ≠ "atlas") (h2 : t ≠ "labels") (h3 : t ≠ "scalar") (h4 : t ≠ "data") :
    (a.shape ≠ s.shape →
      _ensure_aligned resample a s (some t) = .error (.unknownPolicy t)) ∧
    (a.shape = s.shape → _ensure_aligned resample a s (some t) = .ok (a, s, [])) := by
  constructor <;> intro h <;> simp [_ensure_aligned, h, h1, h2, h3, h4]

/-- Witness for the amended C6 at the token bogus. -/
theorem unknown_policy_error_on_mismatch_witness :
    _ensure_aligned constResample imgA imgB (some "bogus") =
      .error (.unknownPolicy "bogus") ∧
    _ensure_aligned constResample imgA imgA2 (some "bogus") = .ok (imgA, imgA2, []) :=
  ⟨(unknown_policy_error_on_mismatch constResample imgA imgB "bogus"
      (by decide) (by decide) (by decide) (by decide)).1 (by decide),
   (unknown_policy_error_on_mismatch constResample imgA imgA2 "bogus"
      (by decide) (by decide) (by decide) (by decide)).2 rfl⟩

/-- Counterexample to claim C4: the count entry of the catalog applied to the empty
input returns 0.0, not not-a-number. -/
theorem count_empty_returns_zero :
    (get_roi_metric "count").map (fun s => s.compute []) = some (NVal.val 0) ∧
    (NVal.val 0 : NVal) ≠ NVal.nan := by
  refine ⟨by decide, by decide⟩

/-- Claim C4 as amended: every built-in reducer of the catalog is a total function
(it is a function in this embedding, so it never raises) and, applied to the empty
input, returns not-a-number — except count, which returns 0. -/
theorem catalog_empty_input_behavior :
    ROI_METRICS.map (fun p => (p.1, p.2.compute [])) =
      [("nanmean", .nan), ("nanmedian", .nan), ("nanstd", .nan), ("nanmin", .nan),
       ("nanmax", .nan), ("count", .val 0), ("zfmean", .nan), ("iqrmean", .nan),
       ("mad_median", .nan)] := by decide

/-- Counterexample to claim C7: the volume-module resolver applied to the empty spec
list yields the single name mean, not the full nine-name catalog. -/
theorem volume_empty_specs_not_full_catalog :
    (_resolve_metric_specs []).map Prod.fst = .ok ["mean"] ∧
    ["mean"] ≠ _BUILTIN_METRICS.map Prod.fst := by
  refine ⟨rfl, by decide⟩

/-- Claim C7 as amended: the registry resolver with an absent or empty spec list
yields the full built-in catalog, in catalog order, with the matching reducers; the
volume-module resolver instead falls back to the single metric mean. -/
theorem empty_specs_resolution :
    resolve_roi_metric_specs none none =
      .ok (DEFAULT_ROI_METRIC_NAMES, ROI_METRICS.map fun p => p.2.compute) ∧
    resolve_roi_metric_specs (some []) none =
      .ok (DEFAULT_ROI_METRIC_NAMES, ROI_METRICS.map fun p => p.2.compute) ∧
    (_resolve_metric_specs []).map Prod.fst = .ok ["mean"] :=
  ⟨rfl, rfl, rfl⟩

/-- Claim C8: resolving the alias mean and resolving the canonical nanmean produce
reducers with identical output on every input array. -/
theorem alias_mean_nanmean_equivalent (arr : List NVal) :
    (resolve_roi_metric_specs (some [MetricSpec.name "mean"]) none).map
      (fun r => r.2.map fun f => f arr) =
    (resolve_roi_metric_specs (some [MetricSpec.name "nanmean"]) none).map
      (fun r => r.2.map fun f => f arr) := rfl

/-- Claim C9: the mask loader fails, with the unsupported-mask-type error, exactly on
values that are neither an image, nor a path, nor a string (strings resolve a preset
by name or fall back to path loading, so every string is supported). -/
theorem load_mask_error_characterization (nib_load : String → Image)
    (gm wm csf : Image) (m : MaskInput) :
    (∀ t, m = .other t →
      _load_mask nib_load gm wm csf m = .error (.unsupportedMaskType t)) ∧
    ((∀ t, m ≠ .other t) → ∃ img, _load_mask nib_load gm wm csf m = .ok img) := by
  constructor
  · rintro t rfl; rfl
  · intro h
    cases m with
    | image img => exact ⟨img, rfl⟩
    | path p => exact ⟨nib_load p, rfl⟩
    | str s =>
      simp only [_load_mask]
      split_ifs <;> exact ⟨_, rfl⟩
    | other t => exact absurd rfl (h t)

/-- Witness for C9: an unsupported value raises, a preset string loads. -/
theorem load_mask_error_characterization_witness :
    _load_mask nibLoadEx imgA imgA imgA (.other "int") =
      .error (.unsupportedMaskType "int") ∧
    ∃ img, _load_mask nibLoadEx imgA imgA imgA (.str "gm") = .ok img :=
  ⟨(load_mask_error_characterization nibLoadEx imgA imgA imgA (.other "int")).1
      "int" rfl,
   (load_mask_error_characterization nibLoadEx imgA imgA imgA (.str "gm")).2
      (fun _t h => MaskInput.noConfusion h)⟩

/-- Claim C10: the output of parcellate_volume does not depend on the output_format
argument; any two invocations differing only in it return the same table. -/
theorem output_format_ignored (resample_from_to : Image → Image → ℕ → Image)
    (nib_load : String → Image) (gm_mask wm_mask csf_mask : Image)
    (read_tsv : String → List (ℤ × String)) (atlas_path scalar_path : Image)
    (metrics : List MetricSpec) (lut : Option LutInput)
    (resample_target : Option String) (mask : Option MaskInput)
    (fmt1 fmt2 : String) :
    parcellate_volume resample_from_to nib_load gm_mask wm_mask csf_mask read_tsv
      atlas_path scalar_path metrics lut resample_target fmt1 mask =
    parcellate_volume resample_from_to nib_load gm_mask wm_mask csf_mask read_tsv
      atlas_path scalar_path metrics lut resample_target fmt2 mask := rfl

/-- Claim C1: for every run the engine accepts, the label column of the returned
table is exactly the list of distinct strictly positive labels of the (possibly
masked) label grid, in strictly ascending order; in particular the background label
0 and non-positive labels never appear as rows. -/
theorem roi_rows_positive_sorted (resample_from_to : Image → Image → ℕ → Image)
    (nib_load : String → Image) (gm_mask wm_mask csf_mask : Image)
    (read_tsv : String → List (ℤ × String)) (atlas_path scalar_path : Image)
    (metrics : List MetricSpec) (lut : Option LutInput)
    (resample_target : Option String) (fmt : String) (mask : Option MaskInput)
    (t : ROITable) (a : List ℤ)
    (hma : maskedAtlas resample_from_to nib_load gm_mask wm_mask csf_mask atlas_path
      scalar_path resample_target mask = .ok a)
    (hok : parcellate_volume resample_from_to nib_load gm_mask wm_mask csf_mask
      read_tsv atlas_path scalar_path metrics lut resample_target fmt mask = .ok t) :
    t.labelCol = (npUnique a).filter (fun l => decide (0 < l)) ∧
    t.labelCol.Sorted (· < ·) ∧
    (∀ l : ℤ, l ∈ t.labelCol ↔ l ∈ a ∧ 0 < l) ∧
    (0 : ℤ) ∉ t.labelCol := by
  have hlab : t.labelCol = (npUnique a).filter (fun l => decide (0 < l)) := by
    cases hs : alignedScalar resample_from_to atlas_path scalar_path resample_target with
    | error e =>
      simp only [parcellate_volume, hma, hs] at hok
      exact Except.noConfusion hok
    | ok scalars =>
      cases hr : _resolve_metric_specs metrics with
      | error e =>
        simp only [parcellate_volume, hma, hs, hr] at hok
        exact Except.noConfusion hok
      | ok p =>
        obtain ⟨names, funcs⟩ := p
        simp only [parcellate_volume, hma, hs, hr, Except.ok.injEq] at hok
        rw [← hok]
  refine ⟨hlab, ?_, ?_, ?_⟩
  · rw [hlab]
    exact (sorted_npUnique a).filter _
  · intro l
    rw [hlab, List.mem_filter, mem_npUnique]
    simp only [decide_eq_true_eq]
  · rw [hlab, List.mem_filter]
    intro hc
    simpa using hc.2

/-- The table of the unmasked 2 by 2 scenario: labels 1 and 2 with means 2 and 6. -/
def tableEx1 : ROITable :=
  { indexCol := ["1", "2"], labelCol := [1, 2], nameCol := none,
    metricNames := ["mean"], values := [[.val 2], [.val 6]] }

/-- Witness for C1 at the concrete 2 by 2 scenario. -/
theorem roi_rows_positive_sorted_witness :
    tableEx1.labelCol = (npUnique [1, 1, 2, 2]).filter (fun l => decide (0 < l)) ∧
    tableEx1.labelCol.Sorted (· < ·) ∧ (0 : ℤ) ∉ tableEx1.labelCol :=
  have h := roi_rows_positive_sorted constResample nibLoadEx imgA imgA imgA readTsvEx
    imgA scalarImgEx [MetricSpec.name "mean"] none (some "labels") "dataframe" none
    tableEx1 [1, 1, 2, 2] (by with_unfolding_all decide) (by with_unfolding_all decide)
  ⟨h.1, h.2.1, h.2.2.2⟩

/-- The table of the masked 2 by 2 scenario: region 1 mean 3, region 2 mean 7. -/
def maskedTableEx : ROITable :=
  { indexCol := ["1", "2"], labelCol := [1, 2], nameCol := none,
    metricNames := ["mean"], values := [[.val 3], [.val 7]] }

/-- Claim C2: applying a boolean mask keeps the original label exactly where the
mask is true and writes background 0 where it is false, and on the scenario grids
(labels [[1,1],[2,2]], values [[1,3],[5,7]], mask [[0,1],[0,1]]) the engine returns
nanmean 3 for region 1 and 7 for region 2. -/
theorem mask_application_voxelwise (cond : List Bool) (atlas : List ℤ) (i : ℕ)
    (h1 : i < cond.length) (h2 : i < atlas.length) :
    (npWhereZero cond atlas)[i]? = some (if cond[i] then atlas[i] else 0) ∧
    parcellate_volume constResample nibLoadEx imgA imgA imgA readTsvEx imgA
      scalarImgEx [MetricSpec.name "mean"] none (some "labels") "dataframe"
      (some (MaskInput.image maskImgEx)) = .ok maskedTableEx :=
  ⟨npWhereZero_getElem cond atlas i h1 h2, by with_unfolding_all decide⟩

/-- Witness for C2 at index 1 of a two-voxel mask. -/
theorem mask_application_voxelwise_witness :
    (npWhereZero [false, true] [5, 6])[1]? =
      some (if [false, true][1] then [5, 6][1] else 0) ∧
    parcellate_volume constResample nibLoadEx imgA imgA imgA readTsvEx imgA
      scalarImgEx [MetricSpec.name "mean"] none (some "labels") "dataframe"
      (some (MaskInput.image maskImgEx)) = .ok maskedTableEx :=
  mask_application_voxelwise [false, true] [5, 6] 1 (by decide) (by decide)

end QsiParc
